import Mathlib

/-!
Verification of the TestWings diagnostic utilities.

Shallow embedding of:
- `tools/check_onnx_inputs.py` (graph input classifier): name-based input
  classification, shape display, grouped listing with elision, the dual-phase
  (static onnx / onnxruntime) control flow, and `main`'s path resolution.
- `docs/tools/download_model.py` (model fetcher): the fixed file list and the
  single-try download loop.

File-system access, network transfer and third-party library loads are
modelled as explicit oracles (`String → Bool` existence predicates,
`Except`-valued load results) passed to the embedded functions; everything
else is translated directly from the Python source.
-/

namespace TestWings

/-! ## String helpers

Python's `str.lower()` is modelled by ASCII lowercasing (all category
fragments in the source are ASCII), `in` by contiguous-sublist containment
and `str.startswith` by prefix containment. -/

/-- ASCII lowercasing of a string, modelling Python `name.lower()`. -/
def strLower (s : String) : String := ⟨s.data.map Char.toLower⟩

/-- `sub` occurs as a contiguous sublist of `l`: some suffix of `l` has `sub`
as a prefix. -/
def listIsInfix (sub l : List Char) : Bool :=
  match l with
  | [] => sub.isEmpty
  | _ :: tl => sub.isPrefixOf l || listIsInfix sub tl

/-- `containsSub s sub` models Python `sub in s` (substring containment). -/
def containsSub (s sub : String) : Bool := listIsInfix sub.data s.data

/-- `strStarts s pre` models Python `s.startswith(pre)`. -/
def strStarts (s pre : String) : Bool := pre.data.isPrefixOf s.data

/-! ## Input classification (`analyze_onnx_model`, check_onnx_inputs.py 64–73) -/

/-- The five classification buckets of `analyze_onnx_model`. -/
inductive Category
  | embeds | mask | position | cache | other
  deriving DecidableEq, Repr

/-- The if/elif classification chain of `analyze_onnx_model`:

```
if 'inputs_embeds' in name.lower() or name == 'inputs_embeds': ...
elif 'attention_mask' in name.lower() or name == 'attention_mask': ...
elif 'position_ids' in name.lower() or name == 'position_ids': ...
elif 'past_key_values' in name.lower() or name.startswith('past_key_values'): ...
else: ...
``` -/
def classify (name : String) : Category :=
  if containsSub (strLower name) "inputs_embeds" || name == "inputs_embeds" then
    Category.embeds
  else if containsSub (strLower name) "attention_mask" || name == "attention_mask" then
    Category.mask
  else if containsSub (strLower name) "position_ids" || name == "position_ids" then
    Category.position
  else if containsSub (strLower name) "past_key_values" || strStarts name "past_key_values" then
    Category.cache
  else
    Category.other

/-! ## Shape display (check_onnx_inputs.py 55–56) -/

/-- One dimension of an ONNX tensor shape as exposed by the protobuf API:
`dim_value` (int64, default 0) and `dim_param` (string, default ""). -/
structure Dim where
  dim_value : Int
  dim_param : String
  deriving DecidableEq, Repr

/-- One element of the displayed shape: either an integer or a symbolic
dimension name. -/
inductive ShapeElem
  | int (n : Int)
  | sym (s : String)
  deriving DecidableEq, Repr

/-- `dim.dim_value if dim.dim_value > 0 else (dim.dim_param if dim.dim_param
else -1)` — the display element for one dimension. Python string truthiness
is non-emptiness. -/
def displayDim (d : Dim) : ShapeElem :=
  if 0 < d.dim_value then ShapeElem.int d.dim_value
  else if d.dim_param ≠ "" then ShapeElem.sym d.dim_param
  else ShapeElem.int (-1)

/-- A declared graph input tensor: its name, protobuf shape dimensions and
element type tag. -/
structure InputTensor where
  name : String
  dims : List Dim
  elemType : Nat
  deriving DecidableEq, Repr

/-- The `shape` list computed for one input's `input_info`. -/
def infoShape (t : InputTensor) : List ShapeElem := t.dims.map displayDim

/-- The category bucket built by the append-per-input loop: the inputs whose
name classifies to `c`, in declaration order. -/
def categoryGroup (c : Category) (inputs : List InputTensor) : List InputTensor :=
  inputs.filter fun t => classify t.name == c

/-! ## Runtime (onnxruntime) phase (check_onnx_inputs.py 117–140) -/

/-- A runtime-reported shape element: onnxruntime yields either a symbolic
name (string) or an integer. -/
inductive RDim
  | str (s : String)
  | int (n : Int)
  deriving DecidableEq, Repr

/-- `isinstance(dim, str) or (isinstance(dim, int) and dim < 0)`. -/
def isDynamicDim : RDim → Bool
  | RDim.str _ => true
  | RDim.int n => n < 0

/-- `[i for i, dim in enumerate(shape) if isinstance(dim, str) or
(isinstance(dim, int) and dim < 0)]`. -/
def dynamicDims (shape : List RDim) : List Nat :=
  (shape.enum.filter fun p => isDynamicDim p.2).map Prod.fst

/-- One input as reported by `session.get_inputs()`. -/
structure RtInput where
  name : String
  shape : List RDim
  typeStr : String
  deriving DecidableEq, Repr

/-! ## The dual-phase analysis as an output-event trace -/

/-- The observable output of `analyze_onnx_model`, abstracted to the events
that the claims are about (one constructor per print site that carries
data). -/
inductive OutEvent
  | loadOk
  | loadFail (msg : String)
  | staticCount (n : Nat)
  | groupHeader (c : Category)
  | pkvHeader (n : Nat)
  | entry (c : Category) (name : String) (shape : List ShapeElem)
  | pkvElision (k : Nat)
  | rtCount (n : Nat)
  | rtInput (name : String) (shape : List RDim) (ty : String) (dyn : List Nat)
  | rtFail (msg : String)
  deriving DecidableEq, Repr

/-- The entry line printed for one classified input. -/
def entryEvent (c : Category) (t : InputTensor) : OutEvent :=
  OutEvent.entry c t.name (infoShape t)

/-- The `(name, shape)` payload of one printed entry line. -/
def entryPayload (t : InputTensor) : String × List ShapeElem := (t.name, infoShape t)

/-- `if <group>:` — header plus one line per input, for the four simple
groups. -/
def simpleGroupEvents (c : Category) (l : List InputTensor) : List OutEvent :=
  if l.isEmpty then []
  else OutEvent.groupHeader c :: l.map (entryEvent c)

/-- The `past_key_values` group printing (check_onnx_inputs.py 94–104):
header with the total count, the first three entries
(`past_key_values_inputs[:3]`), an elision line when the total exceeds six
(`len - 6`), then the last three entries (`past_key_values_inputs[-3:]`,
i.e. `drop (length - 3)`). -/
def pkvGroupEvents (l : List InputTensor) : List OutEvent :=
  if l.isEmpty then []
  else
    OutEvent.pkvHeader l.length ::
      ((l.take 3).map (entryEvent Category.cache) ++
        (if 6 < l.length then [OutEvent.pkvElision (l.length - 6)] else []) ++
        (l.drop (l.length - 3)).map (entryEvent Category.cache))

/-- The grouped static listing, in source print order. -/
def staticListing (inputs : List InputTensor) : List OutEvent :=
  simpleGroupEvents Category.embeds (categoryGroup Category.embeds inputs) ++
    simpleGroupEvents Category.mask (categoryGroup Category.mask inputs) ++
    simpleGroupEvents Category.position (categoryGroup Category.position inputs) ++
    pkvGroupEvents (categoryGroup Category.cache inputs) ++
    simpleGroupEvents Category.other (categoryGroup Category.other inputs)

/-- The runtime-phase per-input lines. -/
def rtInputEvents (l : List RtInput) : List OutEvent :=
  l.map fun m => OutEvent.rtInput m.name m.shape m.typeStr (dynamicDims m.shape)

/-- `analyze_onnx_model`'s control flow over the two fallible loads, as the
trace of output events. The `try: model = onnx.load(...) except: print;
return` makes a static-load failure end the function; only when the static
load succeeds is the runtime session attempted, whose own failure is caught
and reported after the static listing. -/
def analyzeOnnxModel (staticR : Except String (List InputTensor))
    (rtR : Except String (List RtInput)) : List OutEvent :=
  match staticR with
  | Except.error e => [OutEvent.loadFail e]
  | Except.ok inputs =>
    OutEvent.loadOk :: OutEvent.staticCount inputs.length ::
      (staticListing inputs ++
        match rtR with
        | Except.ok rts => OutEvent.rtCount rts.length :: rtInputEvents rts
        | Except.error e => [OutEvent.rtFail e])

/-- The runtime-phase events among the output events. -/
def isRuntimeEvent : OutEvent → Bool
  | OutEvent.rtCount _ => true
  | OutEvent.rtInput _ _ _ _ => true
  | OutEvent.rtFail _ => true
  | _ => false

/-- The runtime phase left a trace (it was at least attempted). -/
def runtimeAttempted (staticR : Except String (List InputTensor))
    (rtR : Except String (List RtInput)) : Bool :=
  (analyzeOnnxModel staticR rtR).any isRuntimeEvent

/-- Extract the payload of an entry line, for stating what the listing
prints. -/
def entryOf : OutEvent → Option (String × List ShapeElem)
  | OutEvent.entry _ n s => some (n, s)
  | _ => none

/-- Extract the count of an elision line. -/
def elisionOf : OutEvent → Option Nat
  | OutEvent.pkvElision k => some k
  | _ => none

/-! ## `main` path resolution (check_onnx_inputs.py 142–179) -/

/-- The hard-coded candidate model paths tried when no argument is given. -/
def possiblePaths : List String :=
  ["E:\\AutoTestDemo\\TestWings\\models\\vl\\decoder_model_merged_q4f16.onnx",
   "C:\\Users\\ch2oh\\AppData\\Local\\Android\\Sdk\\platform-tools\\models\\vl\\decoder_model_merged_q4f16.onnx",
   "models/vl/decoder_model_merged_q4f16.onnx",
   "../models/vl/decoder_model_merged_q4f16.onnx"]

/-- How one invocation of `main` ends. -/
inductive MainResult
  | exitNoModel
  | exitNotFound (p : String)
  | analyzed (p : String)
  deriving DecidableEq, Repr

/-- `sys.argv[1]` when given, else the first existing candidate path
(`for path in possible_paths: if os.path.exists(path): ... break`), else
`None` (print guidance, `sys.exit(1)`). -/
def resolveModelPath (argv : List String) (pathExists : String → Bool) :
    Option String :=
  if 1 < argv.length then argv.get? 1
  else possiblePaths.find? pathExists

/-- `main`: resolve the path, exit 1 if nothing resolved, exit 1 if the
resolved path does not exist, otherwise run the analysis on it. -/
def mainRun (argv : List String) (pathExists : String → Bool) : MainResult :=
  match resolveModelPath argv pathExists with
  | none => MainResult.exitNoModel
  | some p =>
    if pathExists p then MainResult.analyzed p else MainResult.exitNotFound p

/-- Process exit status of a `main` outcome (0 when the analysis ran). -/
def exitStatus : MainResult → Nat
  | MainResult.analyzed _ => 0
  | _ => 1

/-- Whether `analyze_onnx_model` (the parse) was reached. -/
def parseAttempted : MainResult → Bool
  | MainResult.analyzed _ => true
  | _ => false

/-! ## Model fetcher (`download_model.py`) -/

/-- The three configuration files of `required_files`. -/
def requiredFilesBase : List String :=
  ["config.json", "preprocessor_config.json", "tokenizer.json"]

/-- `decoder_file`. -/
def decoderFile : String := "onnx/decoder_model_merged_q4f16.onnx"

/-- `vision_encoder_file`. -/
def visionEncoderFile : String := "onnx/vision_encoder_q4f16.onnx"

/-- `embed_tokens_file`. -/
def embedTokensFile : String := "onnx/embed_tokens_q4f16.onnx"

/-- The guard of the banner print: `if use_q4f16 or True:`. -/
def q4f16BannerShown (use_q4f16 : Bool) : Bool := use_q4f16 || true

/-- The final `required_files` list: the three config files, then the three
model files appended unconditionally (the flag only guards a print whose
condition is always true). -/
def requiredFiles (use_q4f16 : Bool) : List String :=
  requiredFilesBase ++ [decoderFile, visionEncoderFile, embedTokensFile]

/-- `use_q4f16 = "--q4f16" in sys.argv or "-q" in sys.argv` (the
`__main__` block). -/
def parseQ4f16Flag (argv : List String) : Bool :=
  argv.contains "--q4f16" || argv.contains "-q"

/-- `Except.isOk` spelled out for the fetch oracle results. -/
def isOkE {ε α : Type} : Except ε α → Bool
  | Except.ok _ => true
  | Except.error _ => false

/-- The successful fetch results of the files of `l`, in order. -/
def okVals (fetch : String → Except String (String × Nat)) (l : List String) :
    List (String × Nat) :=
  l.filterMap fun f => (fetch f).toOption

/-- The download loop inside the single `try`: request each file in order;
the first raised exception aborts the loop. Returns the files actually
requested (in request order) and either the per-file `(basename, size)`
results or the error. The fetch oracle models `hf_hub_download` plus
`os.path.getsize`. -/
def fetchAll (fetch : String → Except String (String × Nat)) :
    List String → List String × Except String (List (String × Nat))
  | [] => ([], Except.ok [])
  | f :: fs =>
    match fetch f with
    | Except.error e => ([f], Except.error e)
    | Except.ok r =>
      let rest := fetchAll fetch fs
      (f :: rest.1, rest.2.map fun l => r :: l)

/-- The observable outcome of one `download_model` call: whether the banner
printed, which files were requested, the returned boolean, and the per-file
completion report (`None` when the batch aborted: the report is only
printed after all files succeed). -/
structure DownloadOutcome where
  banner : Bool
  requested : List String
  result : Bool
  reported : Option (List (String × Nat))
  errorShown : Option String
  deriving DecidableEq, Repr

/-- `download_model(use_q4f16)`: build `required_files`, run the download
loop; on success print the completion report and return `True`, on the
first exception print the error message and return `False`. -/
def download_model (use_q4f16 : Bool)
    (fetch : String → Except String (String × Nat)) : DownloadOutcome :=
  let run := fetchAll fetch (requiredFiles use_q4f16)
  match run.2 with
  | Except.ok dl =>
    { banner := q4f16BannerShown use_q4f16, requested := run.1,
      result := true, reported := some dl, errorShown := none }
  | Except.error e =>
    { banner := q4f16BannerShown use_q4f16, requested := run.1,
      result := false, reported := none, errorShown := some e }

/-- A sample cache input with the given name, for concrete checks. -/
def sampleCache (n : String) : InputTensor :=
  { name := n, dims := [], elemType := 1 }

/-- A seven-entry cache group. -/
def sample7 : List InputTensor :=
  [sampleCache "k0", sampleCache "k1", sampleCache "k2", sampleCache "k3",
   sampleCache "k4", sampleCache "k5", sampleCache "k6"]

/-- A two-entry cache group. -/
def sample2 : List InputTensor := [sampleCache "a", sampleCache "b"]

/-! ## Sanity checks on concrete inputs -/

example : classify "past_key_values.0.key" = Category.cache := by decide
example : classify "PAST_KEY_VALUES.1.value" = Category.cache := by decide
example : classify "attention_mask" = Category.mask := by decide
example : classify "inputs_embeds" = Category.embeds := by decide
example : classify "position_ids" = Category.position := by decide
example : classify "pixel_values" = Category.other := by decide
example : dynamicDims [RDim.str "batch", RDim.int 3, RDim.int (-1)] = [0, 2] := by decide

/-! ## C1 — `past_key_values` classification -/

/-- C1 (counterexample): the claim says every name containing
`past_key_values` (case-insensitively) lands in the recurrent-cache
category even when it also contains another category fragment; but the
if/elif chain tests `attention_mask` first, so
`"past_key_values.attention_mask"` is classified as an attention-mask
input, not a recurrent-cache input. -/
theorem c1_counterexample :
    containsSub (strLower "past_key_values.attention_mask") "past_key_values" = true ∧
    classify "past_key_values.attention_mask" = Category.mask ∧
    classify "past_key_values.attention_mask" ≠ Category.cache :=
  ⟨by decide, by decide, by decide⟩

/-- C1 (amended): for every declared input whose name contains
`past_key_values` case-insensitively and contains none of the
higher-priority fragments `inputs_embeds`, `attention_mask`,
`position_ids`, the classification is the recurrent-cache category: such an
input joins the recurrent-cache bucket of every input list containing it and
no other bucket. -/
theorem c1_cache_classification (name : String)
    (hc : containsSub (strLower name) "past_key_values" = true)
    (h1 : containsSub (strLower name) "inputs_embeds" = false)
    (h2 : containsSub (strLower name) "attention_mask" = false)
    (h3 : containsSub (strLower name) "position_ids" = false) :
    classify name = Category.cache ∧
    ∀ (inputs : List InputTensor) (t : InputTensor), t ∈ inputs → t.name = name →
      t ∈ categoryGroup Category.cache inputs ∧
      ∀ c : Category, c ≠ Category.cache → t ∉ categoryGroup c inputs := by
  have e1 : (name == "inputs_embeds") = false := by
    rw [beq_eq_false_iff_ne]
    rintro rfl
    exact absurd h1 (by decide)
  have e2 : (name == "attention_mask") = false := by
    rw [beq_eq_false_iff_ne]
    rintro rfl
    exact absurd h2 (by decide)
  have e3 : (name == "position_ids") = false := by
    rw [beq_eq_false_iff_ne]
    rintro rfl
    exact absurd h3 (by decide)
  have hcls : classify name = Category.cache := by
    simp [classify, h1, e1, h2, e2, h3, e3, hc]
  refine ⟨hcls, fun inputs t ht hname => ⟨?_, ?_⟩⟩
  · exact List.mem_filter.mpr ⟨ht, by simp [hname, hcls]⟩
  · intro c hcn hmem
    have hcc := (List.mem_filter.mp hmem).2
    rw [hname, hcls] at hcc
    exact hcn (eq_comm.mp (by simpa using hcc))

/-- C1 witness: a real cache input name is classified into the
recurrent-cache category. -/
theorem c1_cache_classification_witness :
    classify "past_key_values.0.key" = Category.cache :=
  (c1_cache_classification "past_key_values.0.key" (by decide) (by decide)
    (by decide) (by decide)).1

/-! ## C2 — phase (in)dependence -/

/-- C2 (counterexample): the claim says a static-load failure still lets the
runtime phase run; but `except: print; return` ends the function, so with a
failing static load (and a runtime load that would succeed) the whole trace
is the single failure message and no runtime event occurs. -/
theorem c2_counterexample :
    analyzeOnnxModel (Except.error "malformed") (Except.ok ([] : List RtInput)) =
      [OutEvent.loadFail "malformed"] ∧
    runtimeAttempted (Except.error "malformed") (Except.ok []) = false :=
  ⟨rfl, rfl⟩

/-- C2 (amended): the dependence is one-directional. When the static load
succeeds the runtime phase is always attempted, and a runtime failure is
caught and reported after the full static listing (non-fatal); but when the
static load fails the function returns early and the runtime phase is never
attempted. -/
theorem c2_phase_dependence (inputs : List InputTensor) (e : String)
    (rtR : Except String (List RtInput)) :
    runtimeAttempted (Except.ok inputs) rtR = true ∧
    analyzeOnnxModel (Except.ok inputs) (Except.error e) =
      OutEvent.loadOk :: OutEvent.staticCount inputs.length ::
        (staticListing inputs ++ [OutEvent.rtFail e]) ∧
    runtimeAttempted (Except.error e) rtR = false := by
  refine ⟨?_, rfl, rfl⟩
  cases rtR with
  | ok rts => simp [runtimeAttempted, analyzeOnnxModel, isRuntimeEvent]
  | error e2 => simp [runtimeAttempted, analyzeOnnxModel, isRuntimeEvent]

/-! ## C6 — static shape display -/

/-- C6: the displayed shape is the dimension-wise image of `displayDim`,
and for each dimension the element is the integer `dim_value` when
positive, else the symbolic name when `dim_param` is non-empty, else the
sentinel `-1`. -/
theorem c6_display_shape (t : InputTensor) (d : Dim) :
    infoShape t = t.dims.map displayDim ∧
    (0 < d.dim_value → displayDim d = ShapeElem.int d.dim_value) ∧
    (¬ 0 < d.dim_value → d.dim_param ≠ "" → displayDim d = ShapeElem.sym d.dim_param) ∧
    (¬ 0 < d.dim_value → d.dim_param = "" → displayDim d = ShapeElem.int (-1)) := by
  refine ⟨rfl, fun h1 => ?_, fun h1 h2 => ?_, fun h1 h2 => ?_⟩
  · simp [displayDim, h1]
  · simp [displayDim, h1, h2]
  · simp [displayDim, h1, h2]

/-- C6 witness: the three display cases at concrete dimensions. -/
theorem c6_display_shape_witness :
    displayDim ⟨4, ""⟩ = ShapeElem.int 4 ∧
    displayDim ⟨0, "seq_len"⟩ = ShapeElem.sym "seq_len" ∧
    displayDim ⟨0, ""⟩ = ShapeElem.int (-1) :=
  ⟨(c6_display_shape ⟨"x", [], 0⟩ ⟨4, ""⟩).2.1 (by decide),
   (c6_display_shape ⟨"x", [], 0⟩ ⟨0, "seq_len"⟩).2.2.1 (by decide) (by decide),
   (c6_display_shape ⟨"x", [], 0⟩ ⟨0, ""⟩).2.2.2 (by decide) rfl⟩

/-! ## C3 / C10 — the `past_key_values` listing -/

/-- `entryOf` recovers the payload of an entry line. -/
@[simp] theorem entryOf_entryEvent (c : Category) (t : InputTensor) :
    entryOf (entryEvent c t) = some (entryPayload t) := rfl

/-- A header line is not an entry line. -/
@[simp] theorem entryOf_pkvHeader (n : Nat) :
    entryOf (OutEvent.pkvHeader n) = none := rfl

/-- An elision line is not an entry line. -/
@[simp] theorem entryOf_pkvElision (k : Nat) :
    entryOf (OutEvent.pkvElision k) = none := rfl

/-- A header line is not an elision line. -/
@[simp] theorem elisionOf_pkvHeader (n : Nat) :
    elisionOf (OutEvent.pkvHeader n) = none := rfl

/-- `elisionOf` recovers the count of an elision line. -/
@[simp] theorem elisionOf_pkvElision (k : Nat) :
    elisionOf (OutEvent.pkvElision k) = some k := rfl

/-- An entry line is not an elision line. -/
@[simp] theorem elisionOf_entryEvent (c : Category) (t : InputTensor) :
    elisionOf (entryEvent c t) = none := rfl

/-- The entry lines printed for a mapped block are exactly the payloads of
its inputs, in order. -/
theorem filterMap_entryOf_map_entryEvent (c : Category) (xs : List InputTensor) :
    (xs.map (entryEvent c)).filterMap entryOf = xs.map entryPayload := by
  induction xs with
  | nil => rfl
  | cons a tl ih => simp only [List.map_cons, List.filterMap_cons, entryOf_entryEvent, ih]

/-- A mapped block of entry lines contains no elision line. -/
theorem filterMap_elisionOf_map_entryEvent (c : Category) (xs : List InputTensor) :
    (xs.map (entryEvent c)).filterMap elisionOf = [] := by
  induction xs with
  | nil => rfl
  | cons a tl ih => simp only [List.map_cons, List.filterMap_cons, elisionOf_entryEvent, ih]

/-- The entry lines of the `past_key_values` listing: the first three inputs
followed by the last three (`[:3]` and `[-3:]` of the source). -/
theorem pkv_entries (l : List InputTensor) (hne : l.isEmpty = false) :
    (pkvGroupEvents l).filterMap entryOf =
      (l.take 3 ++ l.drop (l.length - 3)).map entryPayload := by
  unfold pkvGroupEvents
  rw [if_neg (by rw [hne]; exact Bool.false_ne_true)]
  by_cases h6 : 6 < l.length
  · rw [if_pos h6]
    simp only [List.filterMap_cons, entryOf_pkvHeader, List.filterMap_append,
      filterMap_entryOf_map_entryEvent, entryOf_pkvElision, List.filterMap_nil,
      List.map_append, List.append_nil]
  · rw [if_neg h6]
    simp only [List.filterMap_cons, entryOf_pkvHeader, List.filterMap_append,
      filterMap_entryOf_map_entryEvent, List.filterMap_nil, List.map_append,
      List.append_nil]

/-- The elision lines of the `past_key_values` listing: exactly one, with
count `length - 6`, when the total exceeds six; none otherwise. -/
theorem pkv_elisions (l : List InputTensor) (hne : l.isEmpty = false) :
    (pkvGroupEvents l).filterMap elisionOf =
      if 6 < l.length then [l.length - 6] else [] := by
  unfold pkvGroupEvents
  rw [if_neg (by rw [hne]; exact Bool.false_ne_true)]
  by_cases h6 : 6 < l.length
  · rw [if_pos h6, if_pos h6]
    simp only [List.filterMap_cons, elisionOf_pkvHeader, List.filterMap_append,
      filterMap_elisionOf_map_entryEvent, elisionOf_pkvElision, List.filterMap_nil,
      List.nil_append, List.append_nil]
  · rw [if_neg h6, if_neg h6]
    simp only [List.filterMap_cons, elisionOf_pkvHeader, List.filterMap_append,
      filterMap_elisionOf_map_entryEvent, List.filterMap_nil, List.nil_append,
      List.append_nil]

/-- C3: when the recurrent-cache category holds more than six entries, the
listing prints exactly the first three and the last three entries (six entry
lines, in original order) and one elision line whose count is `total − 6`. -/
theorem c3_pkv_elision (l : List InputTensor) (h : 6 < l.length) :
    pkvGroupEvents l =
      OutEvent.pkvHeader l.length ::
        ((l.take 3).map (entryEvent Category.cache) ++
          [OutEvent.pkvElision (l.length - 6)] ++
          (l.drop (l.length - 3)).map (entryEvent Category.cache)) ∧
    (pkvGroupEvents l).filterMap entryOf =
      (l.take 3 ++ l.drop (l.length - 3)).map entryPayload ∧
    ((pkvGroupEvents l).filterMap entryOf).length = 6 ∧
    (l.take 3).length = 3 ∧ (l.drop (l.length - 3)).length = 3 ∧
    (pkvGroupEvents l).filterMap elisionOf = [l.length - 6] := by
  have hne : l.isEmpty = false := by
    cases l with
    | nil => simp at h
    | cons a tl => rfl
  have he := pkv_entries l hne
  refine ⟨?_, he, ?_, ?_, ?_, by rw [pkv_elisions l hne, if_pos h]⟩
  · unfold pkvGroupEvents
    rw [if_neg (by rw [hne]; exact Bool.false_ne_true), if_pos h]
  · rw [he, List.length_map, List.length_append, List.length_take, List.length_drop]
    omega
  · rw [List.length_take]; omega
  · rw [List.length_drop]; omega

/-- C3 witness: a seven-entry cache group prints six entry lines and elides
one. -/
theorem c3_pkv_elision_witness :
    ((pkvGroupEvents sample7).filterMap entryOf).length = 6 ∧
    (pkvGroupEvents sample7).filterMap elisionOf = [sample7.length - 6] :=
  ⟨(c3_pkv_elision sample7 (by decide)).2.2.1,
   (c3_pkv_elision sample7 (by decide)).2.2.2.2.2⟩

/-- C10: with `1 ≤ n ≤ 6` cache entries the listing prints `2·min(3,n)`
entry lines — the first `min(3,n)` entries followed by the last `min(3,n)`
entries — with no elision line; for `n ≤ 3` every entry is printed twice
(the listing is the group twice over). -/
theorem c10_pkv_duplication (l : List InputTensor) (h1 : 1 ≤ l.length)
    (h2 : l.length ≤ 6) :
    pkvGroupEvents l =
      OutEvent.pkvHeader l.length ::
        ((l.take 3).map (entryEvent Category.cache) ++
          (l.drop (l.length - 3)).map (entryEvent Category.cache)) ∧
    (pkvGroupEvents l).filterMap entryOf =
      (l.take 3 ++ l.drop (l.length - 3)).map entryPayload ∧
    ((pkvGroupEvents l).filterMap entryOf).length = 2 * min 3 l.length ∧
    (pkvGroupEvents l).filterMap elisionOf = [] ∧
    (l.length ≤ 3 →
      (pkvGroupEvents l).filterMap entryOf = (l ++ l).map entryPayload) := by
  have hne : l.isEmpty = false := by
    cases l with
    | nil => simp at h1
    | cons a tl => rfl
  have he := pkv_entries l hne
  refine ⟨?_, he, ?_, ?_, ?_⟩
  · unfold pkvGroupEvents
    rw [if_neg (by rw [hne]; exact Bool.false_ne_true), if_neg (by omega),
      List.append_nil]
  · rw [he, List.length_map, List.length_append, List.length_take, List.length_drop]
    omega
  · rw [pkv_elisions l hne, if_neg (by omega)]
  · intro h3
    rw [he, List.take_of_length_le h3]
    have hz : l.length - 3 = 0 := by omega
    rw [hz, List.drop_zero]

/-- C10 witness: a two-entry cache group prints each entry twice and elides
nothing. -/
theorem c10_pkv_duplication_witness :
    (pkvGroupEvents sample2).filterMap entryOf = (sample2 ++ sample2).map entryPayload ∧
    (pkvGroupEvents sample2).filterMap elisionOf = [] :=
  ⟨(c10_pkv_duplication sample2 (by decide) (by decide)).2.2.2.2 (by decide),
   (c10_pkv_duplication sample2 (by decide) (by decide)).2.2.2.1⟩

/-! ## C7 — runtime dynamic-dimension indices -/

/-- The first components of an enumeration are strictly increasing. -/
theorem pairwise_fst_lt_enumFrom {α : Type} (n : Nat) (l : List α) :
    (l.enumFrom n).Pairwise fun a b => a.1 < b.1 := by
  induction l generalizing n with
  | nil => simp
  | cons a tl ih =>
    rw [List.enumFrom_cons, List.pairwise_cons]
    refine ⟨fun b hb => ?_, ih (n + 1)⟩
    have := List.le_fst_of_mem_enumFrom hb
    simpa using by omega

/-- Membership in `dynamicDims`: exactly the positions holding a dynamic
dimension. -/
theorem mem_dynamicDims (shape : List RDim) (i : Nat) :
    i ∈ dynamicDims shape ↔
      ∃ h : i < shape.length, isDynamicDim (shape.get ⟨i, h⟩) = true := by
  unfold dynamicDims
  constructor
  · intro hi
    obtain ⟨p, hp, hpi⟩ := List.mem_map.mp hi
    obtain ⟨hpe, hpd⟩ := List.mem_filter.mp hp
    obtain ⟨j, x⟩ := p
    cases hpi
    have hget := (List.mk_mem_enumFrom_iff_le_and_getElem?_sub.mp hpe).2
    rw [Nat.sub_zero] at hget
    obtain ⟨hlt, hx⟩ := List.getElem?_eq_some.mp hget
    exact ⟨hlt, by simpa [hx] using hpd⟩
  · rintro ⟨h, hd⟩
    refine List.mem_map.mpr ⟨(i, shape.get ⟨i, h⟩), List.mem_filter.mpr ⟨?_, by simpa using hd⟩, rfl⟩
    refine List.mk_mem_enumFrom_iff_le_and_getElem?_sub.mpr ⟨Nat.zero_le i, ?_⟩
    rw [Nat.sub_zero]
    simp [List.getElem?_eq_getElem h]

/-- C7: in the runtime listing a dimension is flagged dynamic exactly when
it is a string or a negative integer, and the reported indices are exactly
the positions of those dimensions, in increasing order. -/
theorem c7_dynamic_dims (shape : List RDim) :
    (∀ s, isDynamicDim (RDim.str s) = true) ∧
    (∀ n : Int, isDynamicDim (RDim.int n) = decide (n < 0)) ∧
    (∀ i : Nat, i ∈ dynamicDims shape ↔
      ∃ h : i < shape.length, isDynamicDim (shape.get ⟨i, h⟩) = true) ∧
    (dynamicDims shape).Pairwise (· < ·) := by
  refine ⟨fun s => rfl, fun n => rfl, fun i => mem_dynamicDims shape i, ?_⟩
  unfold dynamicDims
  rw [List.pairwise_map]
  exact (pairwise_fst_lt_enumFrom 0 shape).filter _

/-- C7 witness: concrete membership through the characterization. -/
theorem c7_dynamic_dims_witness :
    0 ∈ dynamicDims [RDim.str "batch", RDim.int 3, RDim.int (-1)] ∧
    dynamicDims [RDim.str "batch", RDim.int 3, RDim.int (-1)] = [0, 2] :=
  ⟨((c7_dynamic_dims [RDim.str "batch", RDim.int 3, RDim.int (-1)]).2.2.1 0).mpr
      ⟨by decide, by decide⟩,
   by decide⟩

/-! ## C8 — `main` exit behaviour -/

/-- C8: when the resolved model path (the positional argument when given,
else the first existing candidate) does not exist, `main` exits with status
1 without reaching the parse; and with no argument and no existing
candidate, `main` prints guidance and exits with status 1. -/
theorem c8_exit_on_missing (argv : List String) (pathExists : String → Bool) :
    (∀ p, resolveModelPath argv pathExists = some p → pathExists p = false →
      mainRun argv pathExists = MainResult.exitNotFound p ∧
      exitStatus (mainRun argv pathExists) = 1 ∧
      parseAttempted (mainRun argv pathExists) = false) ∧
    (argv.length ≤ 1 → (∀ p ∈ possiblePaths, pathExists p = false) →
      mainRun argv pathExists = MainResult.exitNoModel ∧
      exitStatus (mainRun argv pathExists) = 1 ∧
      parseAttempted (mainRun argv pathExists) = false) := by
  constructor
  · intro p hres hex
    have hmain : mainRun argv pathExists = MainResult.exitNotFound p := by
      unfold mainRun
      rw [hres]
      simp [hex]
    exact ⟨hmain, by rw [hmain]; rfl, by rw [hmain]; rfl⟩
  · intro hlen hnone
    have hres : resolveModelPath argv pathExists = none := by
      unfold resolveModelPath
      rw [if_neg (by omega)]
      exact List.find?_eq_none.mpr fun x hx => by simp [hnone x hx]
    have hmain : mainRun argv pathExists = MainResult.exitNoModel := by
      unfold mainRun
      rw [hres]
    exact ⟨hmain, by rw [hmain]; rfl, by rw [hmain]; rfl⟩

/-- C8 witness: a nonexistent explicit argument exits via the not-found
branch; no argument and no candidates exits via the guidance branch. -/
theorem c8_exit_on_missing_witness :
    mainRun ["check_onnx_inputs.py", "missing.onnx"] (fun _ => false) =
      MainResult.exitNotFound "missing.onnx" ∧
    mainRun ["check_onnx_inputs.py"] (fun _ => false) = MainResult.exitNoModel :=
  ⟨((c8_exit_on_missing ["check_onnx_inputs.py", "missing.onnx"] (fun _ => false)).1
      "missing.onnx" rfl rfl).1,
   ((c8_exit_on_missing ["check_onnx_inputs.py"] (fun _ => false)).2 (by decide)
      fun p _ => rfl).1⟩

/-! ## C4 — the quantization flag has no effect -/

/-- C4: `download_model` is insensitive to its `use_q4f16` argument — for
any fetch oracle the banner, the requested files, their order, the returned
boolean and the report coincide for both flag values; consequently the
`--q4f16`/`-q` command-line flags, parsed into that argument, have no
effect. -/
theorem c4_flag_no_effect (u₁ u₂ : Bool)
    (fetch : String → Except String (String × Nat)) (argv : List String) :
    download_model u₁ fetch = download_model u₂ fetch ∧
    requiredFiles u₁ = requiredFiles u₂ ∧
    download_model (parseQ4f16Flag argv) fetch = download_model false fetch := by
  have key : ∀ a b : Bool, download_model a fetch = download_model b fetch := by
    intro a b
    cases a <;> cases b <;> rfl
  exact ⟨key u₁ u₂, rfl, key _ false⟩

/-! ## C5 — download batch behaviour -/

/-- When every fetch succeeds, the loop requests every file in order and
collects all results. -/
theorem fetchAll_all_ok (fetch : String → Except String (String × Nat)) :
    ∀ l : List String, (∀ f ∈ l, isOkE (fetch f) = true) →
      fetchAll fetch l = (l, Except.ok (okVals fetch l)) := by
  intro l
  induction l with
  | nil => intro _; rfl
  | cons f fs ih =>
    intro h
    have hf := h f (List.mem_cons_self f fs)
    cases hfe : fetch f with
    | error e => rw [hfe] at hf; simp [isOkE] at hf
    | ok r =>
      simp only [fetchAll, hfe]
      rw [ih fun g hg => h g (List.mem_cons_of_mem f hg)]
      simp [okVals, List.filterMap_cons, hfe, Except.toOption, Except.map]

/-- The first failing fetch aborts the loop: everything before it and the
failing file itself are requested, nothing after. -/
theorem fetchAll_first_error (fetch : String → Except String (String × Nat))
    (g : String) (e : String) (l₂ : List String) :
    ∀ l₁ : List String, (∀ x ∈ l₁, isOkE (fetch x) = true) →
      fetch g = Except.error e →
      fetchAll fetch (l₁ ++ g :: l₂) = (l₁ ++ [g], Except.error e) := by
  intro l₁
  induction l₁ with
  | nil =>
    intro _ hg
    simp [fetchAll, hg]
  | cons a tl ih =>
    intro h hg
    have ha := h a (List.mem_cons_self a tl)
    cases hae : fetch a with
    | error e2 => rw [hae] at ha; simp [isOkE] at ha
    | ok r =>
      simp only [List.cons_append, fetchAll, hae]
      rw [List.append_eq, ih (fun x hx => h x (List.mem_cons_of_mem a hx)) hg]
      simp [Except.map]

/-- C5: `download_model` requests exactly the six fixed files in order; if
all six fetches succeed it reports each file's result and returns `True`;
if some fetch fails, the failing file is the last one requested (no later
file is tried), no completion report is printed, and it returns `False`. -/
theorem c5_download_batch (u : Bool)
    (fetch : String → Except String (String × Nat)) :
    requiredFiles u = ["config.json", "preprocessor_config.json", "tokenizer.json",
      "onnx/decoder_model_merged_q4f16.onnx", "onnx/vision_encoder_q4f16.onnx",
      "onnx/embed_tokens_q4f16.onnx"] ∧
    ((∀ f ∈ requiredFiles u, isOkE (fetch f) = true) →
      (download_model u fetch).requested = requiredFiles u ∧
      (download_model u fetch).result = true ∧
      (download_model u fetch).reported = some (okVals fetch (requiredFiles u)) ∧
      (download_model u fetch).errorShown = none) ∧
    (∀ (l₁ : List String) (g : String) (l₂ : List String) (e : String),
      requiredFiles u = l₁ ++ g :: l₂ →
      (∀ x ∈ l₁, isOkE (fetch x) = true) → fetch g = Except.error e →
      (download_model u fetch).requested = l₁ ++ [g] ∧
      (download_model u fetch).result = false ∧
      (download_model u fetch).reported = none ∧
      (download_model u fetch).errorShown = some e) := by
  refine ⟨rfl, ?_, ?_⟩
  · intro h
    have hrun := fetchAll_all_ok fetch (requiredFiles u) h
    unfold download_model
    rw [hrun]
    exact ⟨rfl, rfl, rfl, rfl⟩
  · intro l₁ g l₂ e hsplit h1 hg
    have hrun := fetchAll_first_error fetch g e l₂ l₁ h1 hg
    unfold download_model
    rw [hsplit, hrun]
    exact ⟨rfl, rfl, rfl, rfl⟩

/-- C5 witness: with an always-succeeding oracle the batch succeeds on all
six files; with an oracle failing on the third file only the first three
files are requested and the call fails with no report. -/
theorem c5_download_batch_witness :
    (download_model true fun f => Except.ok (f, 1)).result = true ∧
    (download_model true fun f => Except.ok (f, 1)).requested = requiredFiles true ∧
    (download_model true fun f =>
        if f == "tokenizer.json" then Except.error "network down"
        else Except.ok (f, 1)).requested =
      ["config.json", "preprocessor_config.json", "tokenizer.json"] ∧
    (download_model true fun f =>
        if f == "tokenizer.json" then Except.error "network down"
        else Except.ok (f, 1)).result = false ∧
    (download_model true fun f =>
        if f == "tokenizer.json" then Except.error "network down"
        else Except.ok (f, 1)).reported = none ∧
    (download_model true fun f =>
        if f == "tokenizer.json" then Except.error "network down"
        else Except.ok (f, 1)).errorShown = some "network down" :=
  ⟨((c5_download_batch true fun f => Except.ok (f, 1)).2.1 fun f _ => rfl).2.1,
   ((c5_download_batch true fun f => Except.ok (f, 1)).2.1 fun f _ => rfl).1,
   ((c5_download_batch true _).2.2 ["config.json", "preprocessor_config.json"]
      "tokenizer.json"
      ["onnx/decoder_model_merged_q4f16.onnx", "onnx/vision_encoder_q4f16.onnx",
        "onnx/embed_tokens_q4f16.onnx"] "network down" rfl (by decide) rfl).1,
   ((c5_download_batch true _).2.2 ["config.json", "preprocessor_config.json"]
      "tokenizer.json"
      ["onnx/decoder_model_merged_q4f16.onnx", "onnx/vision_encoder_q4f16.onnx",
        "onnx/embed_tokens_q4f16.onnx"] "network down" rfl (by decide) rfl).2.1,
   ((c5_download_batch true _).2.2 ["config.json", "preprocessor_config.json"]
      "tokenizer.json"
      ["onnx/decoder_model_merged_q4f16.onnx", "onnx/vision_encoder_q4f16.onnx",
        "onnx/embed_tokens_q4f16.onnx"] "network down" rfl (by decide) rfl).2.2.1,
   ((c5_download_batch true _).2.2 ["config.json", "preprocessor_config.json"]
      "tokenizer.json"
      ["onnx/decoder_model_merged_q4f16.onnx", "onnx/vision_encoder_q4f16.onnx",
        "onnx/embed_tokens_q4f16.onnx"] "network down" rfl (by decide) rfl).2.2.2⟩

end TestWings
